import Mathlib

/-!
# Shallow embedding of the `youtube-uploader-node` upload pipeline

This file embeds the `POST /upload` request handler of `src/index.js`
(together with its helper `downloadFromR2ToTemp`) as pure Lean functions.

External collaborators (MongoDB, axios, the S3/R2 client, the YouTube
client) are modelled by an environment record `Env` that fixes the outcome
of each external call a run can make, and the handler records every
external call it performs in an event trace.  Control flow, error
messages, response shapes and the order of checks follow `src/index.js`
line by line:

* `if (!userId) return res.status(401)...`            (line 129)
* `if (!video_url) return res.status(400)...`         (line 130)
* `users.findOne({ sub: userId })` / 401 on miss      (lines 133-135)
* `axios.get(video_url)` and the content-length check (lines 151-153)
* `PutObjectCommand` with `parseInt(contentLength)`   (lines 156-162)
* `downloadFromR2ToTemp` with its catch-and-unlink    (lines 104-122)
* `youtube.videos.insert`                             (lines 168-183)
* `DeleteObjectCommand`, `fs.unlink`, `res.json`      (lines 186-198)
* the surrounding `catch` producing `500 {error, details?}` (lines 200-206).
-/

namespace YtUploader

/-- A credential record in the `tokens` Mongo collection, as written by the
`/auth/callback` handler (`src/index.js` lines 85-96): keyed by `sub`, with
`email`, `access_token`, `refresh_token`, `token_expiry`. -/
structure CredRecord where
  email : String
  access_token : String
  refresh_token : String
  token_expiry : Int
deriving DecidableEq, Repr

/-- A thrown JS error as the upload handler's `catch` block sees it:
`err.message` plus the optional upstream payload `err.response?.data`
(`src/index.js` lines 202-205). -/
structure JsError where
  message : String
  data : Option String
deriving DecidableEq, Repr

/-- The part of the axios response the handler inspects:
`response.headers['content-length']`, which is `undefined` (`none`) when
the source declares no length. -/
structure FetchResp where
  contentLength : Option String
deriving DecidableEq, Repr

/-- Observable external calls a run can make, in trace order:
Mongo `findOne`, the axios fetch, the R2 `PutObjectCommand` (with the
`ContentLength` value passed, `none` standing for JavaScript `NaN`),
the R2 `GetObjectCommand`, the local temp-file write, `fs.unlink`,
the OAuth2 client's transparent token refresh, `youtube.videos.insert`,
and the R2 `DeleteObjectCommand`. -/
inductive Event where
  | findUser : String → Event
  | fetch : String → Event
  | stage : String → Option Int → Event
  | getObject : String → Event
  | writeLocal : String → Event
  | unlink : String → Event
  | refresh : Event
  | publish : Event
  | delete : String → Event
deriving DecidableEq, Repr

/-- The environment of one run: the state of the `tokens` collection and
the outcome each external call would have if performed.  `objectName`
stands for the generated key `video_${Date.now()}_${uuid.slice(0,8)}.mp4`
(line 156) and `now` for the current time used by the OAuth2 client's
expiry check. -/
structure Env where
  store : List (String × CredRecord)
  fetchResult : Except JsError FetchResp
  objectName : String
  stageResult : Except JsError Unit
  getObjectResult : Except JsError Unit
  writeLocalResult : Except JsError Unit
  publishResult : Except JsError String
  deleteResult : Except JsError Unit
  now : Int
deriving Repr

/-- The response the handler sends: HTTP status plus the fields appearing
in the JSON bodies of `src/index.js` (`error`/`details` on failure,
`videoId`/`message`/`url` on success). -/
structure Resp where
  status : Nat
  error : Option String
  details : Option String
  videoId : Option String
  message : Option String
  url : Option String
deriving DecidableEq, Repr

/-- The body and query of a `POST /upload` request (`src/index.js`
lines 126-127).  `userId` and `video_url` are optional because the
handler tests them for JS falsiness before use. -/
structure UploadReq where
  userId : Option String
  video_url : Option String
  title : String
  description : String
  tags : List String
  category_id : String
  privacy_status : String
  publish_at : Option String
deriving DecidableEq, Repr

/-- The complete result of one run: the HTTP response, the event trace
(in the order the external calls were issued), and the final state of the
`tokens` collection. -/
structure RunResult where
  resp : Resp
  events : List Event
  store : List (String × CredRecord)
deriving DecidableEq, Repr

/-- JS falsiness `!x` for a string-or-undefined value: `undefined` and the
empty string are falsy, every other string is truthy. -/
def falsy : Option String → Bool
  | none => true
  | some s => s == ""

/-- `users.findOne({ sub: userId })` over the modelled `tokens`
collection (first record whose key equals the subject id). -/
def findOneSub : List (String × CredRecord) → String → Option CredRecord
  | [], _ => none
  | (k, v) :: rest, sub => if k == sub then some v else findOneSub rest sub

/-- Longest leading run of decimal digits. -/
def takeDigits : List Char → List Char
  | [] => []
  | c :: cs => if c.isDigit then c :: takeDigits cs else []

/-- Value of a digit string. -/
def digitsToNat (cs : List Char) : Nat :=
  cs.foldl (fun a c => a * 10 + (c.toNat - 48)) 0

/-- JavaScript `parseInt(s, 10)`: skip leading whitespace, accept an
optional sign, then read the longest digit run; `none` models `NaN`
(no digits found). -/
def parseIntJS (s : String) : Option Int :=
  let cs := s.data.dropWhile Char.isWhitespace
  match cs with
  | '-' :: rest =>
    match takeDigits rest with
    | [] => none
    | ds => some (-(digitsToNat ds : Int))
  | '+' :: rest =>
    match takeDigits rest with
    | [] => none
    | ds => some ((digitsToNat ds : Int))
  | _ =>
    match takeDigits cs with
    | [] => none
    | ds => some ((digitsToNat ds : Int))

/-- `path.join(os.tmpdir(), objectKey)` with the temp directory modelled
as `/tmp` (`src/index.js` line 110). -/
def tempPath (objectKey : String) : String := "/tmp/" ++ objectKey

/-- `true` exactly on `Except.error`. -/
def isErr {α : Type} : Except JsError α → Bool
  | .error _ => true
  | .ok _ => false

/-- `downloadFromR2ToTemp` (`src/index.js` lines 104-122): issue a
`GetObjectCommand`, pipe the body into a write stream at the temp path,
return the path; on any failure call `fs.unlink(tempFilePath, () => {})`
(error swallowed) and rethrow.  Returns the outcome together with the
events the call performed. -/
def downloadFromR2ToTemp (env : Env) (objectKey : String) :
    Except JsError String × List Event :=
  let tempFilePath := tempPath objectKey
  match env.getObjectResult with
  | .error e => (.error e, [.getObject objectKey, .unlink tempFilePath])
  | .ok _ =>
    match env.writeLocalResult with
    | .error e =>
      (.error e, [.getObject objectKey, .writeLocal tempFilePath, .unlink tempFilePath])
    | .ok _ => (.ok tempFilePath, [.getObject objectKey, .writeLocal tempFilePath])

/-- `401/400/500 {error}` responses. -/
def errResp (status : Nat) (msg : String) : Resp :=
  { status := status, error := some msg, details := none,
    videoId := none, message := none, url := none }

/-- The `catch` block of the handler (`src/index.js` lines 200-206):
`500 {error: err.message, ...(err.response?.data && {details})}`. -/
def catchResp (e : JsError) : Resp :=
  { status := 500, error := some e.message, details := e.data,
    videoId := none, message := none, url := none }

/-- The success body (`src/index.js` lines 194-198):
`{videoId, message: 'Video uploaded successfully', url: https://youtu.be/id}`
with the implicit status 200. -/
def successResp (videoId : String) : Resp :=
  { status := 200, error := none, details := none,
    videoId := some videoId, message := some "Video uploaded successfully",
    url := some ("https://youtu.be/" ++ videoId) }

/-- The `POST /upload` handler (`src/index.js` lines 124-207), step by
step in source order.  The token refresh inside `youtube.videos.insert`
is modelled from the OAuth2 client's documented behaviour: when the
stored `token_expiry` is not in the future the client transparently
refreshes the access token in memory before the insert request; the
handler itself never writes to the `tokens` collection, so the final
store always equals the initial one. -/
def uploadHandler (req : UploadReq) (env : Env) : RunResult :=
  if falsy req.userId then
    { resp := errResp 401 "User not authenticated", events := [], store := env.store }
  else if falsy req.video_url then
    { resp := errResp 400 "Video URL is required", events := [], store := env.store }
  else
    let userId := req.userId.getD ""
    let url := req.video_url.getD ""
    match findOneSub env.store userId with
    | none =>
      { resp := errResp 401 "User not found",
        events := [.findUser userId], store := env.store }
    | some userData =>
      match env.fetchResult with
      | .error e =>
        { resp := catchResp e,
          events := [.findUser userId, .fetch url], store := env.store }
      | .ok r =>
        if falsy r.contentLength then
          { resp := catchResp
              { message := "Content-Length header missing from video source", data := none },
            events := [.findUser userId, .fetch url], store := env.store }
        else
          let cl := parseIntJS (r.contentLength.getD "")
          let key := env.objectName
          match env.stageResult with
          | .error e =>
            { resp := catchResp e,
              events := [.findUser userId, .fetch url, .stage key cl],
              store := env.store }
          | .ok _ =>
            match downloadFromR2ToTemp env key with
            | (.error e, evs) =>
              { resp := catchResp e,
                events := [.findUser userId, .fetch url, .stage key cl] ++ evs,
                store := env.store }
            | (.ok tempFilePath, evs) =>
              let preEvents :=
                [.findUser userId, .fetch url, .stage key cl] ++ evs
                  ++ (if userData.token_expiry ≤ env.now then [Event.refresh] else [])
                  ++ [Event.publish]
              match env.publishResult with
              | .error e =>
                { resp := catchResp e, events := preEvents, store := env.store }
              | .ok videoId =>
                match env.deleteResult with
                | .error e =>
                  { resp := catchResp e,
                    events := preEvents ++ [.delete key], store := env.store }
                | .ok _ =>
                  { resp := successResp videoId,
                    events := preEvents ++ [.delete key, .unlink tempFilePath],
                    store := env.store }

/-- Does the trace contain a Mongo `findOne` call? -/
def hasFindUser : List Event → Bool
  | [] => false
  | .findUser _ :: _ => true
  | _ :: es => hasFindUser es

/-- Does the trace contain a fetch of the source URL? -/
def hasFetch : List Event → Bool
  | [] => false
  | .fetch _ :: _ => true
  | _ :: es => hasFetch es

/-- Does the trace contain a `PutObjectCommand` (stage) call? -/
def hasStage : List Event → Bool
  | [] => false
  | .stage _ _ :: _ => true
  | _ :: es => hasStage es

/-- Does the trace contain a `youtube.videos.insert` (publish) call? -/
def hasPublish : List Event → Bool
  | [] => false
  | .publish :: _ => true
  | _ :: es => hasPublish es

/-- Does the trace contain a `DeleteObjectCommand` on the staged key? -/
def hasDelete : List Event → Bool
  | [] => false
  | .delete _ :: _ => true
  | _ :: es => hasDelete es

/-- Does the trace contain an `fs.unlink` of a local path? -/
def hasUnlink : List Event → Bool
  | [] => false
  | .unlink _ :: _ => true
  | _ :: es => hasUnlink es

/-! ## Concrete runs used as inputs for the theorems below -/

/-- A stored credential whose access token is still valid far in the
future. -/
def freshCred : CredRecord :=
  { email := "u@example.com", access_token := "tokA",
    refresh_token := "tokR", token_expiry := 9999999 }

/-- A stored credential whose access token expired (expiry 1000, with
`now` set to 2000 below), so the OAuth2 client refreshes before the
insert call. -/
def staleCred : CredRecord :=
  { email := "u@example.com", access_token := "old-access-token",
    refresh_token := "tokR", token_expiry := 1000 }

/-- A well-formed upload request: userId `user1`, a source URL, and the
usual metadata. -/
def req1 : UploadReq :=
  { userId := some "user1", video_url := some "https://example.com/a.mp4",
    title := "T", description := "D", tags := ["t"], category_id := "22",
    privacy_status := "private", publish_at := none }

/-- An environment where everything up to the publish call succeeds and
the publish call fails with an upstream quota error. -/
def envPublishFails : Env :=
  { store := [("user1", freshCred)],
    fetchResult := .ok { contentLength := some "12345" },
    objectName := "video_1700000000000_abcd1234.mp4",
    stageResult := .ok (),
    getObjectResult := .ok (),
    writeLocalResult := .ok (),
    publishResult := .error { message := "Quota exceeded", data := some "quotaExceeded" },
    deleteResult := .ok (),
    now := 1000 }

/-- An environment where the publish call succeeds (video id `vid123`)
and the subsequent `DeleteObjectCommand` on the staged key fails. -/
def envDeleteFails : Env :=
  { store := [("user1", freshCred)],
    fetchResult := .ok { contentLength := some "12345" },
    objectName := "video_1700000000000_abcd1234.mp4",
    stageResult := .ok (),
    getObjectResult := .ok (),
    writeLocalResult := .ok (),
    publishResult := .ok "vid123",
    deleteResult := .error { message := "R2 delete failed", data := none },
    now := 1000 }

/-- An environment for a fully successful run whose stored access token
is expired, so the publish step refreshes it. -/
def envStaleOk : Env :=
  { store := [("user1", staleCred)],
    fetchResult := .ok { contentLength := some "12345" },
    objectName := "video_1700000000000_abcd1234.mp4",
    stageResult := .ok (),
    getObjectResult := .ok (),
    writeLocalResult := .ok (),
    publishResult := .ok "vid123",
    deleteResult := .ok (),
    now := 2000 }

/-! ## Claim theorems -/

/-- C1: the claim states that every run failing after a successful stage
step still releases the staged object key and the local artifact before
the error is surfaced.  The code violates this: in the run below staging
and materialization succeed, the publish call fails, and the `catch`
block (src/index.js lines 200-206) returns the 500 without ever issuing
a `DeleteObjectCommand` or an `fs.unlink` — cleanup (lines 186-192)
exists only on the success path, so both resources leak. -/
theorem c1_publish_failure_leaks_resources :
    (uploadHandler req1 envPublishFails).resp.status = 500 ∧
    hasStage (uploadHandler req1 envPublishFails).events = true ∧
    hasDelete (uploadHandler req1 envPublishFails).events = false ∧
    hasUnlink (uploadHandler req1 envPublishFails).events = false := by decide

/-- C2: the claim states that a failure of the staged-object delete does
not change the run's primary outcome, so a run whose publish succeeded
still returns the 200 success result.  The code violates this: the
`DeleteObjectCommand` is awaited inside the `try` block, so in the run
below the publish succeeds with video id `vid123` yet the response is
the 500 carrying the delete error, not the 200 success body. -/
theorem c2_delete_failure_overrides_success :
    envDeleteFails.publishResult = Except.ok "vid123" ∧
    (uploadHandler req1 envDeleteFails).resp.status = 500 ∧
    (uploadHandler req1 envDeleteFails).resp.error = some "R2 delete failed" ∧
    (uploadHandler req1 envDeleteFails).resp.videoId = none :=
  ⟨rfl, by decide, by decide, by decide⟩

/-- C3: the claim states that when the stored access token is expired and
the publish step refreshes it, the refreshed token and expiry are written
back to the credential store before the run completes.  The code violates
this: in the run below the stored token is expired (expiry 1000 < now
2000), the OAuth2 client refreshes in memory (the `refresh` event is in
the trace) and the run completes successfully, yet the `tokens`
collection is unchanged and still holds the stale access token — the
handler has no store write path at all. -/
theorem c3_refresh_not_persisted :
    (uploadHandler req1 envStaleOk).resp.status = 200 ∧
    Event.refresh ∈ (uploadHandler req1 envStaleOk).events ∧
    (uploadHandler req1 envStaleOk).store = envStaleOk.store ∧
    findOneSub (uploadHandler req1 envStaleOk).store "user1" = some staleCred := by
  refine ⟨by decide, by decide, rfl, by decide⟩

/-- An environment whose source response declares a non-empty but
unparseable content length `"abc"`. -/
def envBadLength : Env :=
  { store := [("user1", freshCred)],
    fetchResult := .ok { contentLength := some "abc" },
    objectName := "video_1700000000000_abcd1234.mp4",
    stageResult := .ok (),
    getObjectResult := .ok (),
    writeLocalResult := .ok (),
    publishResult := .ok "vid123",
    deleteResult := .ok (),
    now := 1000 }

/-- A request that supplies a `userId` with no credential record and no
`video_url`. -/
def reqGhostNoUrl : UploadReq :=
  { userId := some "ghost", video_url := none, title := "T", description := "D",
    tags := [], category_id := "22", privacy_status := "private", publish_at := none }

/-- Same unknown `userId`, this time with a `video_url` supplied. -/
def reqGhost : UploadReq :=
  { reqGhostNoUrl with video_url := some "https://example.com/a.mp4" }

/-- A request with no `userId`. -/
def reqNoUser : UploadReq := { req1 with userId := none }

/-- A request with a `userId` but no `video_url`. -/
def reqNoUrl : UploadReq := { req1 with video_url := none }

/-- A request missing both `userId` and `video_url`. -/
def reqEmpty : UploadReq := { reqNoUser with video_url := none }

/-- An environment where the `GetObjectCommand` inside
`downloadFromR2ToTemp` fails. -/
def envGetFails : Env :=
  { envStaleOk with getObjectResult := .error { message := "NoSuchKey", data := none } }

/-- C4, counterexample: the claim states the stage call is never invoked
when the source declares no parseable length.  With the declared value
`"abc"` — not parseable, `parseInt` gives `NaN` — the truthiness check
`if (!contentLength)` passes and the `PutObjectCommand` IS issued, with
`NaN` as its `ContentLength`. -/
theorem c4_unparseable_length_still_staged :
    envBadLength.fetchResult = Except.ok { contentLength := some "abc" } ∧
    parseIntJS "abc" = none ∧
    Event.stage envBadLength.objectName none ∈ (uploadHandler req1 envBadLength).events :=
  ⟨rfl, by decide, by decide⟩

/-- C4, amended: the run fails with the content-length error and no stage
call exactly when the declared content-length header is absent or empty
(JS-falsy); any non-empty declared value, parseable or not, leads to the
stage call being invoked. -/
theorem c4_length_check (req : UploadReq) (env : Env) (rec : CredRecord) (r : FetchResp)
    (h1 : falsy req.userId = false) (h2 : falsy req.video_url = false)
    (h3 : findOneSub env.store (req.userId.getD "") = some rec)
    (h4 : env.fetchResult = Except.ok r) :
    (falsy r.contentLength = true →
      (uploadHandler req env).resp.status = 500 ∧
      (uploadHandler req env).resp.error =
        some "Content-Length header missing from video source" ∧
      hasStage (uploadHandler req env).events = false) ∧
    (falsy r.contentLength = false →
      hasStage (uploadHandler req env).events = true) := by
  constructor
  · intro hcl
    simp [uploadHandler, h1, h2, h3, h4, hcl, catchResp, hasStage]
  · intro hcl
    rcases hs : env.stageResult with e | u
    · simp [uploadHandler, h1, h2, h3, h4, hcl, hs, hasStage]
    · rcases hd : downloadFromR2ToTemp env env.objectName with ⟨dres, devs⟩
      rcases dres with e | p
      · simp [uploadHandler, h1, h2, h3, h4, hcl, hs, hd, hasStage]
      · rcases hp : env.publishResult with e | vid
        · simp [uploadHandler, h1, h2, h3, h4, hcl, hs, hd, hp, hasStage]
        · rcases hdel : env.deleteResult with e | u2
          · simp [uploadHandler, h1, h2, h3, h4, hcl, hs, hd, hp, hdel, hasStage]
          · simp [uploadHandler, h1, h2, h3, h4, hcl, hs, hd, hp, hdel, hasStage]

/-- Witness for C4: the amended statement applied to a run whose source
declares no content length at all. -/
theorem c4_length_check_witness :
    falsy ({ contentLength := none : FetchResp }).contentLength = true ∧
    (uploadHandler req1
      { envStaleOk with fetchResult := .ok { contentLength := none } }).resp.status = 500 := by
  constructor
  · decide
  · exact (c4_length_check req1
      { envStaleOk with fetchResult := .ok { contentLength := none } }
      staleCred { contentLength := none }
      (by decide) (by decide) (by decide) rfl).1 (by decide) |>.1

/-- C5: for every fully successful run, the response is a 200 carrying
the video id returned by the publish call plus the fixed message and the
`https://youtu.be/<id>` url, and the staged object key is deleted during
the run, before the success response is produced. -/
theorem c5_success_run (req : UploadReq) (env : Env) (rec : CredRecord) (r : FetchResp)
    (vid : String)
    (h1 : falsy req.userId = false) (h2 : falsy req.video_url = false)
    (h3 : findOneSub env.store (req.userId.getD "") = some rec)
    (h4 : env.fetchResult = Except.ok r)
    (h5 : falsy r.contentLength = false)
    (h6 : env.stageResult = Except.ok ())
    (h7 : env.getObjectResult = Except.ok ())
    (h8 : env.writeLocalResult = Except.ok ())
    (h9 : env.publishResult = Except.ok vid)
    (h10 : env.deleteResult = Except.ok ()) :
    (uploadHandler req env).resp.status = 200 ∧
    (uploadHandler req env).resp.videoId = some vid ∧
    (uploadHandler req env).resp.message = some "Video uploaded successfully" ∧
    (uploadHandler req env).resp.url = some ("https://youtu.be/" ++ vid) ∧
    Event.delete env.objectName ∈ (uploadHandler req env).events := by
  simp [uploadHandler, downloadFromR2ToTemp, h1, h2, h3, h4, h5, h6, h7, h8, h9, h10,
    successResp]

/-- Witness for C5: the fully successful concrete run. -/
theorem c5_success_run_witness :
    (uploadHandler req1 envStaleOk).resp.status = 200 ∧
    (uploadHandler req1 envStaleOk).resp.videoId = some "vid123" ∧
    (uploadHandler req1 envStaleOk).resp.message = some "Video uploaded successfully" ∧
    (uploadHandler req1 envStaleOk).resp.url = some ("https://youtu.be/" ++ "vid123") ∧
    Event.delete envStaleOk.objectName ∈ (uploadHandler req1 envStaleOk).events :=
  c5_success_run req1 envStaleOk staleCred { contentLength := some "12345" } "vid123"
    (by decide) (by decide) (by decide) rfl (by decide) rfl rfl rfl rfl rfl

/-- C6: every request with a JS-falsy `userId` gets the 401
`User not authenticated` response, with an empty event trace — no fetch,
stage, publish, or any other external call. -/
theorem c6_missing_user_unauthenticated (req : UploadReq) (env : Env)
    (h : falsy req.userId = true) :
    (uploadHandler req env).resp.status = 401 ∧
    (uploadHandler req env).resp.error = some "User not authenticated" ∧
    (uploadHandler req env).events = [] := by
  simp [uploadHandler, h, errResp]

/-- Witness for C6. -/
theorem c6_missing_user_unauthenticated_witness :
    (uploadHandler reqNoUser envStaleOk).resp.status = 401 ∧
    (uploadHandler reqNoUser envStaleOk).resp.error = some "User not authenticated" ∧
    (uploadHandler reqNoUser envStaleOk).events = [] :=
  c6_missing_user_unauthenticated reqNoUser envStaleOk (by decide)

/-- C7, counterexample: the claim quantifies over every request whose
`userId` has no credential record, but when such a request also omits
`video_url` the handler returns the 400 validation error, not a 401 —
the `video_url` check at line 130 precedes the credential lookup at
line 134. -/
theorem c7_counterexample_validation_first :
    findOneSub envStaleOk.store "ghost" = none ∧
    (uploadHandler reqGhostNoUrl envStaleOk).resp.status = 400 ∧
    ¬ (uploadHandler reqGhostNoUrl envStaleOk).resp.status = 401 := by decide

/-- C7, amended: every request that supplies both a `userId` with no
credential record and a `video_url` fails with the 401 `User not found`
response before any fetch call is made against the source URL. -/
theorem c7_unknown_user_not_found (req : UploadReq) (env : Env)
    (h1 : falsy req.userId = false) (h2 : falsy req.video_url = false)
    (h3 : findOneSub env.store (req.userId.getD "") = none) :
    (uploadHandler req env).resp.status = 401 ∧
    (uploadHandler req env).resp.error = some "User not found" ∧
    hasFetch (uploadHandler req env).events = false := by
  simp [uploadHandler, h1, h2, h3, errResp, hasFetch]

/-- Witness for C7. -/
theorem c7_unknown_user_not_found_witness :
    (uploadHandler reqGhost envStaleOk).resp.status = 401 ∧
    (uploadHandler reqGhost envStaleOk).resp.error = some "User not found" ∧
    hasFetch (uploadHandler reqGhost envStaleOk).events = false :=
  c7_unknown_user_not_found reqGhost envStaleOk (by decide) (by decide) (by decide)

/-- C8: every request that supplies a `userId` but a JS-falsy `video_url`
gets the 400 response carrying the error field, with an empty event
trace — no fetch, stage or publish call occurs. -/
theorem c8_missing_video_url_validation (req : UploadReq) (env : Env)
    (h1 : falsy req.userId = false) (h2 : falsy req.video_url = true) :
    (uploadHandler req env).resp.status = 400 ∧
    (uploadHandler req env).resp.error = some "Video URL is required" ∧
    (uploadHandler req env).events = [] := by
  simp [uploadHandler, h1, h2, errResp]

/-- Witness for C8. -/
theorem c8_missing_video_url_validation_witness :
    (uploadHandler reqNoUrl envStaleOk).resp.status = 400 ∧
    (uploadHandler reqNoUrl envStaleOk).resp.error = some "Video URL is required" ∧
    (uploadHandler reqNoUrl envStaleOk).events = [] :=
  c8_missing_video_url_validation reqNoUrl envStaleOk (by decide) (by decide)

/-- C9: whenever `downloadFromR2ToTemp` fails — the staged object cannot
be read or the local copy cannot be written — the `fs.unlink` of the
temp path is performed before the error propagates, so materialization
never exits leaving a partial local file behind. -/
theorem c9_materialize_failure_removes_artifact (env : Env) (key : String)
    (h : isErr (downloadFromR2ToTemp env key).1 = true) :
    Event.unlink (tempPath key) ∈ (downloadFromR2ToTemp env key).2 := by
  rcases h1 : env.getObjectResult with e1 | u1 <;>
    rcases h2 : env.writeLocalResult with e2 | u2 <;>
    simp_all [downloadFromR2ToTemp, isErr]

/-- Witness for C9: a failing `GetObjectCommand`. -/
theorem c9_materialize_failure_removes_artifact_witness :
    Event.unlink (tempPath "k.mp4") ∈ (downloadFromR2ToTemp envGetFails "k.mp4").2 :=
  c9_materialize_failure_removes_artifact envGetFails "k.mp4" (by decide)

/-- C10: a request missing both `userId` and `video_url` gets the 401
`User not authenticated` response, not the 400 validation response: the
`userId` check at line 129 runs before the `video_url` check at
line 130. -/
theorem c10_user_check_before_url_check (req : UploadReq) (env : Env)
    (h1 : falsy req.userId = true) (_h2 : falsy req.video_url = true) :
    (uploadHandler req env).resp.status = 401 ∧
    (uploadHandler req env).resp.status ≠ 400 ∧
    (uploadHandler req env).resp.error = some "User not authenticated" := by
  refine ⟨?_, ?_, ?_⟩ <;> simp [uploadHandler, h1, errResp]

/-- Witness for C10. -/
theorem c10_user_check_before_url_check_witness :
    (uploadHandler reqEmpty envStaleOk).resp.status = 401 ∧
    (uploadHandler reqEmpty envStaleOk).resp.status ≠ 400 ∧
    (uploadHandler reqEmpty envStaleOk).resp.error = some "User not authenticated" :=
  c10_user_check_before_url_check reqEmpty envStaleOk (by decide) (by decide)

end YtUploader
